import Mathlib

/-!
Verification development for the moltworker replication / wake-retry core.

The definitions below are a shallow embedding of the TypeScript sources:
  - src/config/backup.ts        (path priorities, feature flags)
  - routes/admin-improved       (isRetryableError, withWakeAndRetry)
  - src/gateway/sync.ts         (syncToR2, doSyncToR2, syncBeforeShutdown)

External I/O (sandbox processes, the R2 object store, clocks, randomness) is
modelled by explicit "world" records supplying the outcome of each external
interaction, consumed in the order the source performs them.
-/

/-- JavaScript String.prototype.toLowerCase, restricted to per-character
lowering (all patterns in this code base are ASCII). -/
def jsToLower (s : String) : String := String.mk (s.data.map Char.toLower)

/-- Whether needle occurs as a contiguous run inside the second list. -/
def infixCheck (needle : List Char) : List Char → Bool
  | [] => needle.isEmpty
  | c :: rest => needle.isPrefixOf (c :: rest) || infixCheck needle rest

/-- JavaScript String.prototype.includes: substring containment. -/
def jsIncludes (s sub : String) : Bool := infixCheck sub.data s.data

/-- Whitespace characters String.prototype.trim strips (the ASCII ones; the
strings this code trims are shell output). -/
def isWhitespaceChar (c : Char) : Bool :=
  c = ' ' || c = '\t' || c = '\n' || c = '\r'

/-- JavaScript String.prototype.trim. -/
def jsTrim (s : String) : String :=
  String.mk (((s.data.dropWhile isWhitespaceChar).reverse.dropWhile isWhitespaceChar).reverse)

/-- JavaScript split('|') over the character list, keeping empty fields. -/
def splitPipeAux : List Char → List Char → List (List Char)
  | [], acc => [acc.reverse]
  | c :: rest, acc =>
    if c = '|' then acc.reverse :: splitPipeAux rest []
    else splitPipeAux rest (c :: acc)

/-- JavaScript String.prototype.split('|'): always at least one field. -/
def jsSplitPipe (s : String) : List String :=
  (splitPipeAux s.data []).map String.mk

/-- JavaScript slice(0, n): the first n characters. -/
def jsSliceFirst (s : String) (n : Nat) : String := String.mk (s.data.take n)

/-- JavaScript slice(-n): the last n characters (the whole string when shorter). -/
def jsSliceLast (s : String) (n : Nat) : String := String.mk (s.data.drop (s.data.length - n))

/-- JavaScript `v || d` for an optional string v: d when v is undefined or empty. -/
def orDefault (v : Option String) (d : String) : String :=
  match v with
  | some s => if s = "" then d else s
  | none => d

/-- Longest leading run of decimal digits, as a number; none when there is no digit. -/
def digitsPrefixVal (cs : List Char) : Option Nat :=
  let ds := cs.takeWhile Char.isDigit
  if ds.isEmpty then none
  else some (ds.foldl (fun acc c => acc * 10 + (c.toNat - 48)) 0)

/-- JavaScript parseInt(s, 10) after the caller has trimmed s: optional sign then
a digit prefix; none stands for NaN. -/
def jsParseInt10 (s : String) : Option Int :=
  match s.data with
  | '-' :: rest => (digitsPrefixVal rest).map (fun n => -(n : Int))
  | '+' :: rest => (digitsPrefixVal rest).map (fun n => (n : Int))
  | cs => (digitsPrefixVal cs).map (fun n => (n : Int))

/-- Math.round(a / 1000) for an integer a (floor of a/1000 + 1/2). -/
def jsRoundDivThousand (a : Int) : Int := Int.fdiv (a + 500) 1000

/-- Rendering of a possibly-undefined number inside a template literal. -/
def jsShowOptInt (v : Option Int) : String :=
  match v with
  | some n => toString n
  | none => "undefined"

/-! ## src/config/backup.ts -/

/-- The PATH_PRIORITY record from src/config/backup.ts, as the (pattern, priority)
pairs in insertion order, which is the iteration order of Object.entries for
these string keys. -/
def PATH_PRIORITY : List (String × Int) :=
  [("credentials", 100),
   ("clawdbot.json", 90),
   (".registered", 80),
   ("channels", 70),
   ("memory", 50),
   ("life", 40),
   ("skills", 30),
   ("scripts", 20),
   ("default", 10)]

/-- PATH_PRIORITY.default in the source. -/
def PATH_PRIORITY_default : Int := 10

/-- getPathPriority from src/config/backup.ts: lowercase the path, return the
priority of the first entry whose (lowercased) pattern occurs in it, else the
default priority. -/
def getPathPriority (filePath : String) : Int :=
  let normalizedPath := jsToLower filePath
  match PATH_PRIORITY.find? (fun pr => jsIncludes normalizedPath (jsToLower pr.1)) with
  | some pr => pr.2
  | none => PATH_PRIORITY_default

/-- The backup feature flags of src/config/backup.ts. -/
inductive BackupFlag where
  | SHUTDOWN_SYNC
  | CRITICAL_FILE_PRIORITY
  | SYNC_VERIFICATION
  | POST_RESTART_VERIFICATION
  | REALTIME_SYNC
  | SNAPSHOTS
  | WAL
deriving DecidableEq

/-- BACKUP_FEATURE_FLAGS values from src/config/backup.ts. -/
def BACKUP_FEATURE_FLAGS : BackupFlag → Bool
  | .SHUTDOWN_SYNC => true
  | .CRITICAL_FILE_PRIORITY => true
  | .SYNC_VERIFICATION => true
  | .POST_RESTART_VERIFICATION => true
  | .REALTIME_SYNC => false
  | .SNAPSHOTS => false
  | .WAL => false

/-- CANARY_USERS from src/config/backup.ts. -/
def CANARY_USERS : List String := ["jack-lippold", "joshua-carey"]

/-- isBackupFeatureEnabled from src/config/backup.ts. -/
def isBackupFeatureEnabled (flag : BackupFlag) (userId : Option String) : Bool :=
  let globallyEnabled := BACKUP_FEATURE_FLAGS flag
  match flag, userId with
  | .REALTIME_SYNC, some uid => CANARY_USERS.contains uid
  | _, _ => globallyEnabled

/-! ## Wake-and-retry wrapper (improved admin routes module) -/

/-- The retryableMessages list inside isRetryableError. -/
def retryableMessages : List String :=
  ["timeout",
   "hibernating",
   "not ready",
   "connection refused",
   "sandbox_not_found",
   "instanceGetTimeout",
   "portReadyTimeout",
   "ECONNREFUSED",
   "ETIMEDOUT",
   "gateway failed to start",
   "process not found"]

/-- isRetryableError: the lowercased error message contains one of the
(lowercased) retryable substrings. -/
def isRetryableError (message : String) : Bool :=
  let m := jsToLower message
  retryableMessages.any (fun s => jsIncludes m (jsToLower s))

/-- Outcome of one iteration of the withWakeAndRetry try block (state check,
optional wake, then the wrapped operation): the response the operation
returned, or the message of the error the iteration threw. -/
inductive AttemptResult (α : Type) where
  | ok (resp : α)
  | thrown (message : String)
deriving DecidableEq

/-- What a withWakeAndRetry call does, as observed by its caller.
The second constructor models control reaching the post-loop line
`return c.json(\x7b...\x7d, 503)`: the identifier `c` is not bound anywhere in
the scope of the standalone function withWakeAndRetry (it is the Hono context
of the route handlers), so evaluating that line throws a ReferenceError
instead of returning the intended 503 response; the constructor records the
value of the local lastError at that point. -/
inductive WakeRetryOutcome (α : Type) where
  | returned (resp : α)
  | refErrorThrown (lastError : Option String)
deriving DecidableEq

/-- The for-loop of withWakeAndRetry. attempts gives each iteration's outcome,
attempt is the loop counter, remaining the iterations left before
retryAttempts is exhausted. Returns the outcome together with the number of
iterations that actually ran. -/
def retryLoop {α : Type} (attempts : Nat → AttemptResult α) (attempt : Nat)
    (remaining : Nat) (lastError : Option String) : WakeRetryOutcome α × Nat :=
  match remaining with
  | 0 => (.refErrorThrown lastError, 0)
  | r + 1 =>
    match attempts attempt with
    | .ok resp => (.returned resp, 1)
    | .thrown msg =>
      if isRetryableError msg then
        let rest := retryLoop attempts (attempt + 1) r (some msg)
        (rest.1, rest.2 + 1)
      else
        (.refErrorThrown (some msg), 1)

/-- withWakeAndRetry from the improved admin routes module, with the
per-iteration behaviour (sandbox lookup, state check, wake, operation)
abstracted into the attempts oracle. -/
def withWakeAndRetry {α : Type} (attempts : Nat → AttemptResult α)
    (retryAttempts : Nat) : WakeRetryOutcome α × Nat :=
  retryLoop attempts 0 retryAttempts none

/-- The default retryAttempts of withWakeAndRetry. -/
def defaultRetryAttempts : Nat := 3

/-! ## src/gateway/sync.ts -/

/-- SyncResult from src/gateway/sync.ts. Optional fields are none when the
source leaves them undefined. fileCount uses none for a NaN count (parseInt of
non-numeric output) as well as for an absent field; no claim inspects it. -/
structure SyncResult where
  success : Bool
  lastSync : Option String := none
  error : Option String := none
  details : Option String := none
  syncId : Option String := none
  fileCount : Option Int := none
  durationMs : Option Int := none
  rsyncExitCode : Option Int := none
deriving DecidableEq

/-- The fields of SyncOptions that syncToR2 / syncBeforeShutdown consult
(r2Prefix and timeoutMs; mode, emergency and criticalOnly are never read by
these functions). -/
structure SyncOptions where
  r2Prefix : Option String := none
  timeoutMs : Option Int := none
deriving DecidableEq

/-- Truthiness of the three R2 environment bindings consulted by doSyncToR2. -/
structure EnvConfig where
  r2AccessKeyId : Bool
  r2SecretAccessKey : Bool
  cfAccountId : Bool
deriving DecidableEq

/-- The guard `!env.R2_ACCESS_KEY_ID || !env.R2_SECRET_ACCESS_KEY ||
!env.CF_ACCOUNT_ID` passes exactly when all three are truthy. -/
def r2Configured (e : EnvConfig) : Bool :=
  e.r2AccessKeyId && e.r2SecretAccessKey && e.cfAccountId

/-- State of the local primary configuration file /root/.clawdbot/clawdbot.json
as the source-validation check command observes it. -/
structure LocalConfig where
  filePresent : Bool
  parses : Bool
  hasAgents : Bool
  hasChannels : Bool
  hasGateway : Bool
deriving DecidableEq

/-- Stdout of the validation command `test -f /root/.clawdbot/clawdbot.json &&
node -e ...`: the node script prints ok only when the file exists (else the
shell never runs node), JSON.parse succeeds, and at least one of the agents,
channels, gateway fields is present; any throw leaves stdout empty. -/
def configCheckStdout (c : LocalConfig) : String :=
  if c.filePresent && c.parses && (c.hasAgents || c.hasChannels || c.hasGateway)
  then "ok\n" else ""

/-- State of the rsync mirror process at the moment the 30s waitForProcess
returns: either the shell command exited (with the exit code of its trailing
`exit $rsync_exit`), or it is still running, in which case echoRan records
whether the trailing marker write had already executed. waitForProcess (a
repository helper not under src/) is modelled as resolving without throwing
once its timeout elapses, which is what the caller's subsequent
`rsyncExitCode !== null` check presupposes. -/
inductive RsyncPhase where
  | exited (code : Int)
  | running (echoRan : Bool)
deriving DecidableEq

/-- The exit code doSyncToR2 reads from the process object after the wait:
null (none) while the process is still running. -/
def observedExitCode : RsyncPhase → Option Int
  | .exited code => some code
  | .running _ => none

/-- Content the sync command writes to the .last-sync marker:
`echo "id|timestamp" > mountPath/.last-sync` writes the interpolation followed
by the newline echo appends. -/
def markerLine (syncId timestamp : String) : String :=
  syncId ++ "|" ++ timestamp ++ "\n"

/-- External-world oracle for one syncToR2 call, one field per external
interaction in source order. Throw fields carry the message of an exception
raised inside the corresponding try block; priorMarker is the marker file's
content before this call (empty string when the file is absent, matching the
empty stdout a cat of a missing file yields). startMs models Date.now() at
entry, laterMs every later Date.now() reading, nowIso the
`new Date().toISOString()` timestamp, randomSuffix the Math.random suffix of
generateSyncId. -/
structure SyncWorld where
  env : EnvConfig
  mountOk : Bool
  config : LocalConfig
  configCheckThrow : Option String := none
  configCheckStderr : String := ""
  pgrepThrow : Bool := false
  pgrepStdout : String := ""
  countBeforeThrow : Bool := false
  countBeforeStdout : String := ""
  rsyncStartThrow : Option String := none
  rsyncPhase : RsyncPhase
  rsyncStdout : String := ""
  rsyncStderr : String := ""
  priorMarker : String := ""
  verifyThrow : Option String := none
  countAfterThrow : Bool := false
  countAfterStdout : String := ""
  startMs : Int
  laterMs : Int
  nowIso : String
  randomSuffix : String
deriving DecidableEq

/-- generateSyncId from src/gateway/sync.ts, with the Date.now() reading and
the base-36 random slice passed in. -/
def generateSyncId (timestampMs : Int) (random : String) : String :=
  "sync-" ++ toString timestampMs ++ "-" ++ random

/-- External actions a sync call performs: the R2 mount plus each
sandbox.startProcess call site of doSyncToR2, in source order. -/
inductive SyncAction where
  | mountR2
  | checkConfig
  | pgrepCheck
  | countBefore
  | rsyncMirror
  | verifyRead
  | countAfter
deriving DecidableEq

/-- `parseInt(stdout?.trim() || '0', 10)` as used for both file counts. -/
def parsedCount (stdout : String) : Option Int :=
  jsParseInt10 (orDefault (some (jsTrim stdout)) "0")

/-- The marker file content the verification cat observes, per RsyncPhase:
the freshly written line once the trailing echo has run, the prior content
otherwise. -/
def markerAtVerify (w : SyncWorld) (syncId : String) : String :=
  match w.rsyncPhase with
  | .exited _ => markerLine syncId w.nowIso
  | .running echoRan => if echoRan then markerLine syncId w.nowIso else w.priorMarker

/-- First component of `content.trim().split('|')` (JS split always yields at
least one element). -/
def writtenSyncIdOf (content : String) : String :=
  (jsSplitPipe (jsTrim content)).headD ""

/-- Second component of the split, when present. -/
def writtenTimestampOf (content : String) : Option String :=
  (jsSplitPipe (jsTrim content)).drop 1 |>.head?

/-- doSyncToR2 from src/gateway/sync.ts, returning the SyncResult together
with the trace of external actions performed. The storeSyncResult history
bookkeeping and console logging are pure diagnostics and are not modelled; a
mount-layer exception (not caught in the source either) is outside the oracle,
which reports the mount outcome as a boolean. -/
def doSyncToR2 (w : SyncWorld) (opts : SyncOptions) (syncId : String) :
    SyncResult × List SyncAction :=
  if !(r2Configured w.env) then
    ({ success := false, error := some "R2 storage is not configured",
       syncId := some syncId }, [])
  else if !w.mountOk then
    ({ success := false, error := some "Failed to mount R2 storage",
       details := some ("Mount failed for prefix: " ++ orDefault opts.r2Prefix "default"
         ++ ". Cannot proceed with sync."),
       syncId := some syncId,
       durationMs := some (w.laterMs - w.startMs) }, [.mountR2])
  else
    match w.configCheckThrow with
    | some errMsg =>
      ({ success := false, error := some "Failed to verify source config",
         details := some errMsg, syncId := some syncId,
         durationMs := some (w.laterMs - w.startMs) }, [.mountR2, .checkConfig])
    | none =>
      if !(jsIncludes (configCheckStdout w.config) "ok") then
        ({ success := false,
           error := some "Sync aborted: config appears empty or invalid",
           details := some ("Local clawdbot.json exists but lacks required fields. stderr: "
             ++ jsSliceFirst w.configCheckStderr 200),
           syncId := some syncId,
           durationMs := some (w.laterMs - w.startMs) }, [.mountR2, .checkConfig])
      else if !w.pgrepThrow && jsTrim w.pgrepStdout != "" then
        ({ success := false, error := some "Sync already in progress",
           details := some "Another rsync process is still running. Skipping to prevent pileup.",
           syncId := some syncId,
           durationMs := some (w.laterMs - w.startMs) },
         [.mountR2, .checkConfig, .pgrepCheck])
      else
        match w.rsyncStartThrow with
        | some errMsg =>
          ({ success := false, error := some ("Sync error: " ++ errMsg),
             details := some errMsg, syncId := some syncId,
             durationMs := some (w.laterMs - w.startMs) },
           [.mountR2, .checkConfig, .pgrepCheck, .countBefore, .rsyncMirror])
        | none =>
          let rsyncExitCode := observedExitCode w.rsyncPhase
          match w.verifyThrow with
          | some errMsg =>
            ({ success := false, error := some ("Sync error: " ++ errMsg),
               details := some errMsg, syncId := some syncId,
               durationMs := some (w.laterMs - w.startMs) },
             [.mountR2, .checkConfig, .pgrepCheck, .countBefore, .rsyncMirror, .verifyRead])
          | none =>
            let syncFileContent := markerAtVerify w syncId
            let writtenSyncId := writtenSyncIdOf syncFileContent
            if writtenSyncId != syncId then
              ({ success := false, error := some "Sync verification failed",
                 details := some ("Expected sync ID " ++ syncId ++ ", got " ++ writtenSyncId
                   ++ ". Rsync may have failed silently. stdout: "
                   ++ jsSliceLast w.rsyncStdout 500 ++ ", stderr: "
                   ++ jsSliceLast w.rsyncStderr 500),
                 syncId := some syncId, rsyncExitCode := rsyncExitCode,
                 durationMs := some (w.laterMs - w.startMs) },
               [.mountR2, .checkConfig, .pgrepCheck, .countBefore, .rsyncMirror, .verifyRead])
            else if (match rsyncExitCode with
                     | some c => c != 0 && c != 24
                     | none => false) then
              ({ success := false,
                 error := some ("Rsync failed with exit code "
                   ++ jsShowOptInt rsyncExitCode),
                 details := some ("stderr: " ++ jsSliceLast w.rsyncStderr 500),
                 syncId := some syncId, rsyncExitCode := rsyncExitCode,
                 durationMs := some (w.laterMs - w.startMs) },
               [.mountR2, .checkConfig, .pgrepCheck, .countBefore, .rsyncMirror, .verifyRead])
            else
              let fileCountAfter : Option Int :=
                if w.countAfterThrow then some 0 else parsedCount w.countAfterStdout
              ({ success := true,
                 lastSync := some (orDefault (writtenTimestampOf syncFileContent) w.nowIso),
                 syncId := some syncId,
                 fileCount := fileCountAfter,
                 rsyncExitCode := some (rsyncExitCode.getD 0),
                 durationMs := some (w.laterMs - w.startMs) },
               [.mountR2, .checkConfig, .pgrepCheck, .countBefore, .rsyncMirror, .verifyRead,
                .countAfter])

/-- Association-list model of the module-level syncLocks Map (key = lock key,
value = timestamp when the sync started). -/
def mapGet (m : List (String × Int)) (k : String) : Option Int :=
  (m.find? (fun p => p.1 = k)).map (fun p => p.2)

/-- Map.delete. -/
def mapDelete (m : List (String × Int)) (k : String) : List (String × Int) :=
  m.filter (fun p => p.1 != k)

/-- Map.set. -/
def mapSet (m : List (String × Int)) (k : String) (v : Int) : List (String × Int) :=
  (k, v) :: mapDelete m k

/-- SYNC_LOCK_TIMEOUT_MS from src/gateway/sync.ts. -/
def SYNC_LOCK_TIMEOUT_MS : Int := 60000

/-- Everything a syncToR2 call did: its result, the external actions it
performed, whether doSyncToR2 was entered, the syncLocks entry for the call's
lock key while the body ran, and the syncLocks map after the finally clause. -/
structure SyncCall where
  result : SyncResult
  trace : List SyncAction
  ranBody : Bool
  lockHeldDuring : Option Int
  locksAfter : List (String × Int)
deriving DecidableEq

/-- The shared tail of syncToR2 once contention is resolved: acquire the lock,
run doSyncToR2, release the lock in the finally clause. -/
def syncAcquireRun (locks1 : List (String × Int)) (lockKey : String)
    (w : SyncWorld) (opts : SyncOptions) (syncId : String) : SyncCall :=
  let locks2 := mapSet locks1 lockKey w.startMs
  let body := doSyncToR2 w opts syncId
  { result := body.1, trace := body.2, ranBody := true,
    lockHeldDuring := mapGet locks2 lockKey,
    locksAfter := mapDelete locks2 lockKey }

/-- syncToR2 from src/gateway/sync.ts: generate a sync id, refuse when a
non-stale lock for the call's key exists, clear a stale lock, then acquire and
run the body under try/finally. The two Date.now() readings taken before the
body (startTime and the lock-age reading) are modelled by the single startMs. -/
def syncToR2 (locks : List (String × Int)) (w : SyncWorld) (opts : SyncOptions) : SyncCall :=
  let syncId := generateSyncId w.startMs w.randomSuffix
  let lockKey := orDefault opts.r2Prefix "default"
  match mapGet locks lockKey with
  | some existingLock =>
    let lockAge := w.startMs - existingLock
    if lockAge < SYNC_LOCK_TIMEOUT_MS then
      { result :=
          { success := false, error := some "Sync already in progress",
            details := some ("Another sync started "
              ++ toString (jsRoundDivThousand lockAge)
              ++ "s ago. Skipping to prevent race condition."),
            syncId := some syncId,
            durationMs := some (w.laterMs - w.startMs) },
        trace := [], ranBody := false, lockHeldDuring := none, locksAfter := locks }
    else
      syncAcquireRun (mapDelete locks lockKey) lockKey w opts syncId
  | none =>
    syncAcquireRun locks lockKey w opts syncId

/-- `options.timeoutMs || 25000` in syncBeforeShutdown (0 is falsy). -/
def shutdownTimeoutMs (opts : SyncOptions) : Int :=
  match opts.timeoutMs with
  | some t => if t = 0 then 25000 else t
  | none => 25000

/-- What a syncBeforeShutdown call did: its result, whether the full pass was
started, and the timeoutMs it passed to the full pass when it ran. -/
structure ShutdownSyncCall where
  result : SyncResult
  ranFull : Bool
  fullTimeoutArg : Option Int
deriving DecidableEq

/-- syncBeforeShutdown from src/gateway/sync.ts, with its two callees treated
as oracles: criticalResult is what syncCriticalFilesToR2 (invoked with
timeoutMs 10000) returned, elapsedAfterCriticalMs the value of
Date.now() - startTime once it finished, and fullResult what syncToR2 returns
when the full pass is started. totalDurationMs models the final
Date.now() - startTime reading. -/
def syncBeforeShutdown (opts : SyncOptions) (criticalResult : SyncResult)
    (elapsedAfterCriticalMs : Int) (fullResult : SyncResult)
    (totalDurationMs : Int) : ShutdownSyncCall :=
  if !(isBackupFeatureEnabled .SHUTDOWN_SYNC none) then
    { result :=
        { success := true, syncId := some "shutdown-skipped", durationMs := some 0,
          details := some "SHUTDOWN_SYNC feature flag is disabled" },
      ranFull := false, fullTimeoutArg := none }
  else
    let timeoutMs := shutdownTimeoutMs opts
    let remainingTime := timeoutMs - elapsedAfterCriticalMs
    if remainingTime < 5000 then
      { result := criticalResult, ranFull := false, fullTimeoutArg := none }
    else if !fullResult.success then
      { result := if criticalResult.success then criticalResult else fullResult,
        ranFull := true, fullTimeoutArg := some remainingTime }
    else
      { result :=
          { success := true,
            syncId := some ("shutdown-" ++ (fullResult.syncId.getD "undefined")),
            fileCount := fullResult.fileCount,
            lastSync := fullResult.lastSync,
            durationMs := some totalDurationMs,
            details := some ("Critical: " ++ jsShowOptInt criticalResult.durationMs
              ++ "ms, Full: " ++ jsShowOptInt fullResult.durationMs ++ "ms") },
        ranFull := true, fullTimeoutArg := some remainingTime }

/-- A world in which a full replication run succeeds: R2 configured, mount
succeeds, the local config is valid, rsync exits 0 within the wait, and no
prior marker content is present. -/
def wHappy : SyncWorld :=
  { env := { r2AccessKeyId := true, r2SecretAccessKey := true, cfAccountId := true },
    mountOk := true,
    config := { filePresent := true, parses := true, hasAgents := true,
                hasChannels := false, hasGateway := false },
    countAfterStdout := "3\n",
    rsyncPhase := .exited 0,
    startMs := 1000, laterMs := 2500,
    nowIso := "2026-01-01T00:00:00.000Z", randomSuffix := "abc123" }

/-- wHappy with the rsync pair exiting with the vanished-files code 24. -/
def wVanished : SyncWorld := { wHappy with rsyncPhase := .exited 24 }

/-- wHappy with the rsync pair exiting with code 12 (ENOSPC class). -/
def wFailedCopy : SyncWorld := { wHappy with rsyncPhase := .exited 12 }

/-- wHappy with the sync command still running at the 30s wait expiry, the
marker echo having already executed. -/
def wHungCopy : SyncWorld := { wHappy with rsyncPhase := .running true }

/-- wHappy with the sync command still running and the marker echo not yet
executed, so the verification read sees the stale prior marker. -/
def wStaleMarker : SyncWorld := { wHappy with rsyncPhase := .running false }

/-- wHappy with a config file that parses but has none of the agents,
channels, gateway sections. -/
def wEmptyConfig : SyncWorld :=
  { wHappy with config := { filePresent := true, parses := true, hasAgents := false,
                            hasChannels := false, hasGateway := false } }

/-- A successful critical-pass result, used to exercise syncBeforeShutdown. -/
def critOkResult : SyncResult :=
  { success := true, syncId := some "critical-sync-900-zz", durationMs := some 900 }

/-- A failed full-pass result, used to exercise syncBeforeShutdown. -/
def fullFailResult : SyncResult :=
  { success := false, error := some "Sync already in progress" }

/-! ## Theorems -/

/-- One unfolding step of the withWakeAndRetry loop. -/
theorem retryLoop_succ {α : Type} (f : Nat → AttemptResult α) (a r : Nat) (le : Option String) :
    retryLoop f a (r + 1) le =
      (match f a with
       | .ok resp => ((.returned resp : WakeRetryOutcome α), 1)
       | .thrown msg =>
         if isRetryableError msg then
           ((retryLoop f (a + 1) r (some msg)).1, (retryLoop f (a + 1) r (some msg)).2 + 1)
         else (.refErrorThrown (some msg), 1)) := rfl

/-- C2: when every one of the retryAttempts iterations throws a
retryable-classified error, withWakeAndRetry does not return a
service-unavailable result: control reaches the post-loop
`return c.json(..., 503)` whose identifier c is unbound in the function's
scope, so the call throws a ReferenceError carrying away the last observed
error message. Evaluated here at three straight ETIMEDOUT failures with the
default three attempts. -/
theorem withWakeAndRetry_exhausted_reference_error :
    withWakeAndRetry (fun _ => (AttemptResult.thrown "ETIMEDOUT" : AttemptResult Nat))
      defaultRetryAttempts
      = (WakeRetryOutcome.refErrorThrown (some "ETIMEDOUT"), 3) := by decide

/-- C8: with the default three attempts, two retryable-classified failures
followed by a success on the third attempt make withWakeAndRetry return that
success; and a permanent-classified failure on the first attempt stops the
loop after exactly one attempt (the failure then escapes through the unbound
post-loop line rather than as a 503 result). -/
theorem withWakeAndRetry_retry_then_success_and_permanent_stops {α : Type}
    (f g : Nat → AttemptResult α) (m0 m1 mp : String) (resp : α)
    (h0 : f 0 = .thrown m0) (hr0 : isRetryableError m0 = true)
    (h1 : f 1 = .thrown m1) (hr1 : isRetryableError m1 = true)
    (h2 : f 2 = .ok resp)
    (hg : g 0 = .thrown mp) (hp : isRetryableError mp = false) :
    (withWakeAndRetry f defaultRetryAttempts).1 = .returned resp ∧
    (withWakeAndRetry g defaultRetryAttempts).2 = 1 ∧
    (withWakeAndRetry g defaultRetryAttempts).1 = .refErrorThrown (some mp) := by
  unfold withWakeAndRetry defaultRetryAttempts
  refine ⟨?_, ?_, ?_⟩
  · rw [show (3 : Nat) = 2 + 1 from rfl, retryLoop_succ, h0]
    simp only [hr0, if_true]
    rw [show (2 : Nat) = 1 + 1 from rfl, retryLoop_succ, h1]
    simp only [hr1, if_true]
    rw [show (1 : Nat) = 0 + 1 from rfl, retryLoop_succ, h2]
  · rw [show (3 : Nat) = 2 + 1 from rfl, retryLoop_succ, hg]
    simp [hp]
  · rw [show (3 : Nat) = 2 + 1 from rfl, retryLoop_succ, hg]
    simp [hp]

/-- C8 witness: ETIMEDOUT and hibernating are retryable and followed by a
success that is returned; a permission-denied first failure classifies as
permanent and ends the loop after one attempt. -/
theorem withWakeAndRetry_retry_then_success_and_permanent_stops_witness :
    (withWakeAndRetry (fun n => match n with
      | 0 => AttemptResult.thrown "ETIMEDOUT"
      | 1 => AttemptResult.thrown "hibernating"
      | _ => (AttemptResult.ok 7 : AttemptResult Nat)) defaultRetryAttempts).1
        = .returned 7 ∧
    (withWakeAndRetry (fun _ => (AttemptResult.thrown "permission denied" : AttemptResult Nat))
      defaultRetryAttempts).2 = 1 ∧
    (withWakeAndRetry (fun _ => (AttemptResult.thrown "permission denied" : AttemptResult Nat))
      defaultRetryAttempts).1 = .refErrorThrown (some "permission denied") :=
  withWakeAndRetry_retry_then_success_and_permanent_stops
    (fun n => match n with
      | 0 => AttemptResult.thrown "ETIMEDOUT"
      | 1 => AttemptResult.thrown "hibernating"
      | _ => (AttemptResult.ok 7 : AttemptResult Nat))
    (fun _ => AttemptResult.thrown "permission denied")
    "ETIMEDOUT" "hibernating" "permission denied" 7
    rfl (by decide) rfl (by decide) rfl rfl (by decide)

/-- C9: getPathPriority returns the priority of the first matching pattern in
the order credentials(100), clawdbot.json(90), .registered(80), channels(70),
memory(50), life/knowledge(40), skills(30), scripts(20), and 10 when none of
those patterns occurs in the (lowercased) path; a path matching several
patterns therefore receives the first-listed one's priority. -/
theorem getPathPriority_precedence (p : String) :
    (jsIncludes (jsToLower p) "credentials" = true → getPathPriority p = 100) ∧
    (jsIncludes (jsToLower p) "credentials" = false →
      jsIncludes (jsToLower p) "clawdbot.json" = true → getPathPriority p = 90) ∧
    (jsIncludes (jsToLower p) "credentials" = false →
      jsIncludes (jsToLower p) "clawdbot.json" = false →
      jsIncludes (jsToLower p) ".registered" = true → getPathPriority p = 80) ∧
    (jsIncludes (jsToLower p) "credentials" = false →
      jsIncludes (jsToLower p) "clawdbot.json" = false →
      jsIncludes (jsToLower p) ".registered" = false →
      jsIncludes (jsToLower p) "channels" = true → getPathPriority p = 70) ∧
    (jsIncludes (jsToLower p) "credentials" = false →
      jsIncludes (jsToLower p) "clawdbot.json" = false →
      jsIncludes (jsToLower p) ".registered" = false →
      jsIncludes (jsToLower p) "channels" = false →
      jsIncludes (jsToLower p) "memory" = true → getPathPriority p = 50) ∧
    (jsIncludes (jsToLower p) "credentials" = false →
      jsIncludes (jsToLower p) "clawdbot.json" = false →
      jsIncludes (jsToLower p) ".registered" = false →
      jsIncludes (jsToLower p) "channels" = false →
      jsIncludes (jsToLower p) "memory" = false →
      jsIncludes (jsToLower p) "life" = true → getPathPriority p = 40) ∧
    (jsIncludes (jsToLower p) "credentials" = false →
      jsIncludes (jsToLower p) "clawdbot.json" = false →
      jsIncludes (jsToLower p) ".registered" = false →
      jsIncludes (jsToLower p) "channels" = false →
      jsIncludes (jsToLower p) "memory" = false →
      jsIncludes (jsToLower p) "life" = false →
      jsIncludes (jsToLower p) "skills" = true → getPathPriority p = 30) ∧
    (jsIncludes (jsToLower p) "credentials" = false →
      jsIncludes (jsToLower p) "clawdbot.json" = false →
      jsIncludes (jsToLower p) ".registered" = false →
      jsIncludes (jsToLower p) "channels" = false →
      jsIncludes (jsToLower p) "memory" = false →
      jsIncludes (jsToLower p) "life" = false →
      jsIncludes (jsToLower p) "skills" = false →
      jsIncludes (jsToLower p) "scripts" = true → getPathPriority p = 20) ∧
    (jsIncludes (jsToLower p) "credentials" = false →
      jsIncludes (jsToLower p) "clawdbot.json" = false →
      jsIncludes (jsToLower p) ".registered" = false →
      jsIncludes (jsToLower p) "channels" = false →
      jsIncludes (jsToLower p) "memory" = false →
      jsIncludes (jsToLower p) "life" = false →
      jsIncludes (jsToLower p) "skills" = false →
      jsIncludes (jsToLower p) "scripts" = false → getPathPriority p = 10) := by
  have e1 : jsToLower "credentials" = "credentials" := by decide
  have e2 : jsToLower "clawdbot.json" = "clawdbot.json" := by decide
  have e3 : jsToLower ".registered" = ".registered" := by decide
  have e4 : jsToLower "channels" = "channels" := by decide
  have e5 : jsToLower "memory" = "memory" := by decide
  have e6 : jsToLower "life" = "life" := by decide
  have e7 : jsToLower "skills" = "skills" := by decide
  have e8 : jsToLower "scripts" = "scripts" := by decide
  have e9 : jsToLower "default" = "default" := by decide
  refine ⟨?_, ?_, ?_, ?_, ?_, ?_, ?_, ?_, ?_⟩ <;>
    intros <;>
    · cases hd : jsIncludes (jsToLower p) "default" <;>
        simp_all [getPathPriority, PATH_PRIORITY, PATH_PRIORITY_default, List.find?]

/-- C9 witness: a credentials path that also matches the skills pattern gets
the credentials priority 100; a channel-config path gets 70. -/
theorem getPathPriority_precedence_witness :
    getPathPriority "/root/.clawdbot/credentials/skills.json" = 100 ∧
    getPathPriority "/root/.clawdbot/channels/slack/config.json" = 70 :=
  ⟨(getPathPriority_precedence "/root/.clawdbot/credentials/skills.json").1 (by decide),
   (getPathPriority_precedence "/root/.clawdbot/channels/slack/config.json").2.2.2.1
     (by decide) (by decide) (by decide) (by decide)⟩

/-- The syncLocks entry written by mapSet is read back. -/
theorem mapGet_set_self (m : List (String × Int)) (k : String) (v : Int) :
    mapGet (mapSet m k v) k = some v := by
  simp [mapGet, mapSet, List.find?]

/-- After mapDelete, the key has no syncLocks entry. -/
theorem mapGet_delete_self (m : List (String × Int)) (k : String) :
    mapGet (mapDelete m k) k = none := by
  have hfind : List.find? (fun p => decide (p.1 = k)) (mapDelete m k) = none := by
    rw [List.find?_eq_none]
    intro x hx
    have hmem := List.of_mem_filter hx
    simpa using hmem
  simp [mapGet, hfind]

/-- C3: while an earlier call for the same lock key holds a replication slot
younger than the 60s TTL, syncToR2 returns the in-progress failure, performs
no external action at all (no mount, no validation, no rsync), and never
enters doSyncToR2. -/
theorem syncToR2_lock_contention_no_copy (locks : List (String × Int)) (w : SyncWorld)
    (opts : SyncOptions) (t : Int)
    (hlock : mapGet locks (orDefault opts.r2Prefix "default") = some t)
    (hfresh : w.startMs - t < SYNC_LOCK_TIMEOUT_MS) :
    (syncToR2 locks w opts).result.success = false ∧
    (syncToR2 locks w opts).result.error = some "Sync already in progress" ∧
    (syncToR2 locks w opts).trace = [] ∧
    (syncToR2 locks w opts).ranBody = false := by
  simp only [syncToR2]
  rw [hlock]
  simp [hfresh]

/-- C3 witness: a lock taken 10ms before the call blocks it with no actions. -/
theorem syncToR2_lock_contention_no_copy_witness :
    (syncToR2 [("default", 990)] wHappy {}).result.success = false ∧
    (syncToR2 [("default", 990)] wHappy {}).result.error = some "Sync already in progress" ∧
    (syncToR2 [("default", 990)] wHappy {}).trace = [] ∧
    (syncToR2 [("default", 990)] wHappy {}).ranBody = false :=
  syncToR2_lock_contention_no_copy [("default", 990)] wHappy {} 990 (by decide) (by decide)

/-- C5: a replication slot at least 60s old is stale: the next syncToR2 call
for that key clears it, acquires a fresh slot stamped with its own start time,
proceeds into doSyncToR2 (whose result it returns), and leaves no lock entry
behind. -/
theorem syncToR2_stale_lock_reclaimed (locks : List (String × Int)) (w : SyncWorld)
    (opts : SyncOptions) (t : Int)
    (hlock : mapGet locks (orDefault opts.r2Prefix "default") = some t)
    (hstale : SYNC_LOCK_TIMEOUT_MS ≤ w.startMs - t) :
    (syncToR2 locks w opts).ranBody = true ∧
    (syncToR2 locks w opts).lockHeldDuring = some w.startMs ∧
    mapGet (syncToR2 locks w opts).locksAfter (orDefault opts.r2Prefix "default") = none ∧
    (syncToR2 locks w opts).result
      = (doSyncToR2 w opts (generateSyncId w.startMs w.randomSuffix)).1 := by
  simp only [syncToR2]
  rw [hlock]
  simp [not_lt.mpr hstale, syncAcquireRun, mapGet_set_self, mapGet_delete_self]

/-- C5 witness: a slot exactly 60000ms old is reclaimed and the call proceeds. -/
theorem syncToR2_stale_lock_reclaimed_witness :
    (syncToR2 [("default", -59000)] wHappy {}).ranBody = true ∧
    (syncToR2 [("default", -59000)] wHappy {}).lockHeldDuring = some wHappy.startMs ∧
    mapGet (syncToR2 [("default", -59000)] wHappy {}).locksAfter (orDefault none "default") = none ∧
    (syncToR2 [("default", -59000)] wHappy {}).result
      = (doSyncToR2 wHappy {} (generateSyncId wHappy.startMs wHappy.randomSuffix)).1 :=
  syncToR2_stale_lock_reclaimed [("default", -59000)] wHappy {} (-59000) (by decide) (by decide)

/-- C4: when the primary local configuration file is missing, or parses with
none of its required top-level sections (agents, channels, gateway) present,
syncToR2 aborts with the source-validation failure and the rsync mirror
command is never started. -/
theorem syncToR2_invalid_config_aborts_no_rsync (locks : List (String × Int))
    (w : SyncWorld) (opts : SyncOptions)
    (hnolock : mapGet locks (orDefault opts.r2Prefix "default") = none)
    (henv : r2Configured w.env = true)
    (hmount : w.mountOk = true)
    (hthrow : w.configCheckThrow = none)
    (hbad : w.config.filePresent = false ∨
            (w.config.parses = true ∧ w.config.hasAgents = false ∧
             w.config.hasChannels = false ∧ w.config.hasGateway = false)) :
    (syncToR2 locks w opts).result.success = false ∧
    (syncToR2 locks w opts).result.error
      = some "Sync aborted: config appears empty or invalid" ∧
    SyncAction.rsyncMirror ∉ (syncToR2 locks w opts).trace := by
  have hstdout : configCheckStdout w.config = "" := by
    rcases hbad with h | ⟨h1, h2, h3, h4⟩
    · simp [configCheckStdout, h]
    · simp [configCheckStdout, h1, h2, h3, h4]
  have hnotok : jsIncludes (configCheckStdout w.config) "ok" = false := by
    rw [hstdout]; decide
  simp only [syncToR2]
  rw [hnolock]
  simp [syncAcquireRun, doSyncToR2, henv, hmount, hthrow, hnotok]

/-- C4 witness: a config that parses but has no agents, channels or gateway
section makes the call abort before any rsync start. -/
theorem syncToR2_invalid_config_aborts_no_rsync_witness :
    (syncToR2 [] wEmptyConfig {}).result.success = false ∧
    (syncToR2 [] wEmptyConfig {}).result.error
      = some "Sync aborted: config appears empty or invalid" ∧
    SyncAction.rsyncMirror ∉ (syncToR2 [] wEmptyConfig {}).trace :=
  syncToR2_invalid_config_aborts_no_rsync [] wEmptyConfig {} (by decide) (by decide)
    (by decide) (by decide) (Or.inr ⟨by decide, by decide, by decide, by decide⟩)

/-- C6: once the call reaches the exit-code check with a matching marker
read-back, rsync exit code 24 (vanished source files) still yields
success:true, while any other non-zero exit code yields success:false with
that exit code reported in the result. -/
theorem syncToR2_rsync_exit_code_classification (locks : List (String × Int))
    (w : SyncWorld) (opts : SyncOptions)
    (hnolock : mapGet locks (orDefault opts.r2Prefix "default") = none)
    (henv : r2Configured w.env = true)
    (hmount : w.mountOk = true)
    (hthrow : w.configCheckThrow = none)
    (hok : jsIncludes (configCheckStdout w.config) "ok" = true)
    (hpgrep : (!w.pgrepThrow && jsTrim w.pgrepStdout != "") = false)
    (hrsync : w.rsyncStartThrow = none)
    (hverify : w.verifyThrow = none)
    (hmatch : writtenSyncIdOf (markerAtVerify w (generateSyncId w.startMs w.randomSuffix))
        = generateSyncId w.startMs w.randomSuffix) :
    (w.rsyncPhase = .exited 24 →
      (syncToR2 locks w opts).result.success = true ∧
      (syncToR2 locks w opts).result.rsyncExitCode = some 24) ∧
    (∀ c : Int, c ≠ 0 → c ≠ 24 → w.rsyncPhase = .exited c →
      (syncToR2 locks w opts).result.success = false ∧
      (syncToR2 locks w opts).result.rsyncExitCode = some c ∧
      (syncToR2 locks w opts).result.error
        = some ("Rsync failed with exit code " ++ toString c)) := by
  simp only [syncToR2]
  rw [hnolock]
  constructor
  · intro hphase
    simp [syncAcquireRun, doSyncToR2, henv, hmount, hthrow, hok, hpgrep, hrsync, hverify,
      hmatch, hphase, observedExitCode]
  · intro c hc0 hc24 hphase
    simp [syncAcquireRun, doSyncToR2, henv, hmount, hthrow, hok, hpgrep, hrsync, hverify,
      hmatch, hphase, observedExitCode, jsShowOptInt, hc0, hc24]

/-- C6 witness: exit code 24 gives a successful result reporting 24; exit
code 12 gives a failed result reporting 12. -/
theorem syncToR2_rsync_exit_code_classification_witness :
    ((syncToR2 [] wVanished {}).result.success = true ∧
     (syncToR2 [] wVanished {}).result.rsyncExitCode = some 24) ∧
    ((syncToR2 [] wFailedCopy {}).result.success = false ∧
     (syncToR2 [] wFailedCopy {}).result.rsyncExitCode = some 12 ∧
     (syncToR2 [] wFailedCopy {}).result.error
       = some ("Rsync failed with exit code " ++ toString (12 : Int))) :=
  ⟨(syncToR2_rsync_exit_code_classification [] wVanished {} (by decide) (by decide)
      (by decide) (by decide) (by decide) (by decide) (by decide) (by decide)
      (by decide)).1 (by decide),
   (syncToR2_rsync_exit_code_classification [] wFailedCopy {} (by decide) (by decide)
      (by decide) (by decide) (by decide) (by decide) (by decide) (by decide)
      (by decide)).2 12 (by decide) (by decide) (by decide)⟩

/-- C10: a sync command whose process has not exited when the 30-second wait
returns (exit code still null) is not classified as a copy failure: when the
marker read-back matches, the call returns success:true and reports
rsyncExitCode 0, whether or not the marker write had actually run. -/
theorem syncToR2_null_exit_code_reported_success (locks : List (String × Int))
    (w : SyncWorld) (opts : SyncOptions) (e : Bool)
    (hnolock : mapGet locks (orDefault opts.r2Prefix "default") = none)
    (henv : r2Configured w.env = true)
    (hmount : w.mountOk = true)
    (hthrow : w.configCheckThrow = none)
    (hok : jsIncludes (configCheckStdout w.config) "ok" = true)
    (hpgrep : (!w.pgrepThrow && jsTrim w.pgrepStdout != "") = false)
    (hrsync : w.rsyncStartThrow = none)
    (hverify : w.verifyThrow = none)
    (hmatch : writtenSyncIdOf (markerAtVerify w (generateSyncId w.startMs w.randomSuffix))
        = generateSyncId w.startMs w.randomSuffix)
    (hphase : w.rsyncPhase = .running e) :
    (syncToR2 locks w opts).result.success = true ∧
    (syncToR2 locks w opts).result.rsyncExitCode = some 0 ∧
    (syncToR2 locks w opts).result.error = none := by
  simp only [syncToR2]
  rw [hnolock]
  simp [syncAcquireRun, doSyncToR2, henv, hmount, hthrow, hok, hpgrep, hrsync, hverify,
    hmatch, hphase, observedExitCode]

/-- C10 witness: a still-running sync command whose marker write already
landed is reported as a fully successful replication with exit code 0. -/
theorem syncToR2_null_exit_code_reported_success_witness :
    (syncToR2 [] wHungCopy {}).result.success = true ∧
    (syncToR2 [] wHungCopy {}).result.rsyncExitCode = some 0 ∧
    (syncToR2 [] wHungCopy {}).result.error = none :=
  syncToR2_null_exit_code_reported_success [] wHungCopy {} true (by decide) (by decide)
    (by decide) (by decide) (by decide) (by decide) (by decide) (by decide)
    (by decide) (by decide)

/-- A successful doSyncToR2 run saw the freshly written marker line at the
verification read, provided the prior marker content did not already carry
this call's sync id. -/
theorem doSync_success_marker (w : SyncWorld) (opts : SyncOptions) (syncId : String)
    (hfresh : writtenSyncIdOf w.priorMarker ≠ syncId)
    (hsucc : (doSyncToR2 w opts syncId).1.success = true) :
    markerAtVerify w syncId = markerLine syncId w.nowIso := by
  unfold doSyncToR2 at hsucc
  repeat' split at hsucc
  all_goals simp_all [markerAtVerify, markerLine]
  all_goals (cases hph : w.rsyncPhase <;> simp_all [markerAtVerify, markerLine])
  all_goals
    intro hE
    rw [hE] at hsucc
    simp_all

/-- C1 (amended): the marker line the sync command writes is exactly
`syncId|timestamp` followed by the newline echo appends, and on any successful
call the content seen at the verification read is exactly that line for the id
generated by this call (given that the pre-existing marker did not already
carry this call's fresh id); and whenever the id read back differs from the
generated id, the call fails with the verification error, for every rsync
phase and exit code — the mismatch check is decided before and independently
of the exit-code check. -/
theorem syncToR2_success_marker_id_verification (locks : List (String × Int))
    (w : SyncWorld) (opts : SyncOptions)
    (hfresh : writtenSyncIdOf w.priorMarker ≠ generateSyncId w.startMs w.randomSuffix) :
    ((syncToR2 locks w opts).result.success = true →
      markerAtVerify w (generateSyncId w.startMs w.randomSuffix)
        = generateSyncId w.startMs w.randomSuffix ++ "|" ++ w.nowIso ++ "\n") ∧
    (mapGet locks (orDefault opts.r2Prefix "default") = none →
      r2Configured w.env = true → w.mountOk = true → w.configCheckThrow = none →
      jsIncludes (configCheckStdout w.config) "ok" = true →
      (!w.pgrepThrow && jsTrim w.pgrepStdout != "") = false →
      w.rsyncStartThrow = none → w.verifyThrow = none →
      writtenSyncIdOf (markerAtVerify w (generateSyncId w.startMs w.randomSuffix))
          ≠ generateSyncId w.startMs w.randomSuffix →
      (syncToR2 locks w opts).result.success = false ∧
      (syncToR2 locks w opts).result.error = some "Sync verification failed") := by
  constructor
  · intro hsucc
    have hbody : (doSyncToR2 w opts (generateSyncId w.startMs w.randomSuffix)).1.success
        = true := by
      simp only [syncToR2, syncAcquireRun] at hsucc
      rcases hget : mapGet locks (orDefault opts.r2Prefix "default") with _ | t <;>
        rw [hget] at hsucc
      · exact hsucc
      · by_cases hage : w.startMs - t < SYNC_LOCK_TIMEOUT_MS
        · simp [hage] at hsucc
        · simpa [hage] using hsucc
    have hmark := doSync_success_marker w opts (generateSyncId w.startMs w.randomSuffix)
      hfresh hbody
    simpa [markerLine] using hmark
  · intro hnolock henv hmount hthrow hok hpgrep hrsync hverify hmismatch
    simp only [syncToR2]
    rw [hnolock]
    simp [syncAcquireRun, doSyncToR2, henv, hmount, hthrow, hok, hpgrep, hrsync, hverify,
      hmismatch]

/-- C1 counterexample to the claim as stated: a fully successful replication
call whose marker content is not exactly `syncId|timestamp` — it is that
string followed by the newline the shell echo appends. -/
theorem syncToR2_marker_exact_content_counterexample :
    (syncToR2 [] wHappy {}).result.success = true ∧
    markerAtVerify wHappy (generateSyncId wHappy.startMs wHappy.randomSuffix)
      ≠ generateSyncId wHappy.startMs wHappy.randomSuffix ++ "|" ++ wHappy.nowIso ∧
    markerAtVerify wHappy (generateSyncId wHappy.startMs wHappy.randomSuffix)
      = generateSyncId wHappy.startMs wHappy.randomSuffix ++ "|" ++ wHappy.nowIso ++ "\n" := by
  decide

/-- C1 witness: on the successful run the verified marker content is the
generated id plus timestamp plus newline; on a run whose read-back sees stale
prior content the call fails with the verification error even though the exit
code was never consulted. -/
theorem syncToR2_success_marker_id_verification_witness :
    markerAtVerify wHappy (generateSyncId wHappy.startMs wHappy.randomSuffix)
      = generateSyncId wHappy.startMs wHappy.randomSuffix ++ "|" ++ wHappy.nowIso ++ "\n" ∧
    ((syncToR2 [] wStaleMarker {}).result.success = false ∧
     (syncToR2 [] wStaleMarker {}).result.error = some "Sync verification failed") :=
  ⟨(syncToR2_success_marker_id_verification [] wHappy {} (by decide)).1 (by decide),
   (syncToR2_success_marker_id_verification [] wStaleMarker {} (by decide)).2
     (by decide) (by decide) (by decide) (by decide) (by decide) (by decide)
     (by decide) (by decide) (by decide)⟩

/-- C7: after the critical pass, a remaining budget below 5000ms makes
syncBeforeShutdown skip the full pass and return the critical result
unchanged; otherwise the full pass runs with the remaining budget as its
timeout, and when it fails while the critical pass succeeded, the critical
result is returned. -/
theorem syncBeforeShutdown_budget_gate (opts : SyncOptions) (crit full : SyncResult)
    (elapsed totalDur : Int) :
    (shutdownTimeoutMs opts - elapsed < 5000 →
      syncBeforeShutdown opts crit elapsed full totalDur
        = { result := crit, ranFull := false, fullTimeoutArg := none }) ∧
    (5000 ≤ shutdownTimeoutMs opts - elapsed →
      (syncBeforeShutdown opts crit elapsed full totalDur).ranFull = true ∧
      (syncBeforeShutdown opts crit elapsed full totalDur).fullTimeoutArg
        = some (shutdownTimeoutMs opts - elapsed) ∧
      (full.success = false → crit.success = true →
        (syncBeforeShutdown opts crit elapsed full totalDur).result = crit)) := by
  have hflag : isBackupFeatureEnabled .SHUTDOWN_SYNC none = true := rfl
  constructor
  · intro h
    simp [syncBeforeShutdown, hflag, h]
  · intro h
    refine ⟨?_, ?_, ?_⟩
    · by_cases hfs : full.success <;> simp [syncBeforeShutdown, hflag, not_lt.mpr h, hfs]
    · by_cases hfs : full.success <;> simp [syncBeforeShutdown, hflag, not_lt.mpr h, hfs]
    · intro hf hc
      simp [syncBeforeShutdown, hflag, not_lt.mpr h, hf, hc]

/-- C7 witness: with the default 25s budget, 21s elapsed leaves under 5s and
the critical result is returned with no full pass; 10s elapsed leaves 15s, the
full pass runs with that budget, and its failure yields the successful
critical result. -/
theorem syncBeforeShutdown_budget_gate_witness :
    syncBeforeShutdown {} critOkResult 21000 fullFailResult 22000
      = { result := critOkResult, ranFull := false, fullTimeoutArg := none } ∧
    ((syncBeforeShutdown {} critOkResult 10000 fullFailResult 24000).ranFull = true ∧
     (syncBeforeShutdown {} critOkResult 10000 fullFailResult 24000).fullTimeoutArg
       = some 15000 ∧
     (syncBeforeShutdown {} critOkResult 10000 fullFailResult 24000).result = critOkResult) :=
  ⟨(syncBeforeShutdown_budget_gate {} critOkResult fullFailResult 21000 22000).1 (by decide),
   ⟨((syncBeforeShutdown_budget_gate {} critOkResult fullFailResult 10000 24000).2
       (by decide)).1,
    ((syncBeforeShutdown_budget_gate {} critOkResult fullFailResult 10000 24000).2
       (by decide)).2.1,
    ((syncBeforeShutdown_budget_gate {} critOkResult fullFailResult 10000 24000).2
       (by decide)).2.2 (by decide) (by decide)⟩⟩
